import Mathlib

/-!
Verification of the LATAM Supply Chain Watchdog validation engine
(`src/app.py`) against its natural-language specification.

The engine is embedded shallowly:

* Python `re` patterns are transcribed into a small regular-expression AST
  (`Regex`) containing exactly the constructs the source patterns use:
  character classes, concatenation, alternation, bounded repetition
  (expanded greedily) and the word-boundary assertion.  A backtracking
  matcher `matchList` enumerates matches in Python's priority order
  (greedy repetition first, left alternative first) and `findall` mirrors
  `re.findall`: leftmost non-overlapping matches, scanning left to right.
* Character predicates (`\d`, `\w`, `[A-Z]`, …) are modelled over ASCII,
  which covers every character the audited patterns and claims mention.
* Python strings are modelled as `String` (sequences of characters);
  `text.upper()` is modelled character-wise and `text[:n]` as a prefix of
  the character list.
-/

namespace Watchdog

/-- ASCII model of the regex word character `\w` = `[A-Za-z0-9_]`,
used by the `\b` word-boundary assertion. -/
def isWordChar (c : Char) : Bool :=
  c.isAlphanum || c == '_'

/-- Whether the first character of a list is a word character
(an empty remainder counts as a non-word position, as at end of input). -/
def headWord : List Char → Bool
  | [] => false
  | c :: _ => isWordChar c

/-- Character classes occurring in the source's patterns:
`\d`, a literal character, an ASCII range such as `[A-Z]`, `\s`, and
unions for bracketed classes such as `[\dkK]` and `[A-Z0-9]`. -/
inductive CClass where
  | digit
  | lit (c : Char)
  | range (lo hi : Char)
  | space
  | union (a b : CClass)
deriving DecidableEq

/-- Membership test of a character class. `\d` and `[a-b]` are read over
ASCII code points; `\s` is the ASCII whitespace set Python's `re` accepts. -/
def CClass.test : CClass → Char → Bool
  | .digit, c => decide (48 ≤ c.toNat) && decide (c.toNat ≤ 57)
  | .lit a, c => a == c
  | .range lo hi, c => decide (lo.toNat ≤ c.toNat) && decide (c.toNat ≤ hi.toNat)
  | .space, c => c == ' ' || c == '\t' || c == '\n' || c == '\r' || c == '\x0b' || c == '\x0c'
  | .union a b, c => a.test c || b.test c

/-- Regular-expression AST: exactly the constructs used by the source's
patterns.  Bounded repetitions `{m,n}` are expanded into alternations by
`Regex.repRange` below, so the AST itself needs no repetition node. -/
inductive Regex where
  | eps
  | cls (c : CClass)
  | seq (a b : Regex)
  | alt (a b : Regex)
  | wb
deriving DecidableEq

/-- Concatenation of a list of regexes (readability helper for
transcribing a pattern as the list of its atoms). -/
def seqAll : List Regex → Regex
  | [] => .eps
  | [r] => r
  | r :: rs => .seq r (seqAll rs)

/-- Exactly `n` copies of `r` in sequence: the expansion of `r{n}`. -/
def Regex.repExact (r : Regex) : Nat → Regex
  | 0 => .eps
  | n + 1 => .seq r (Regex.repExact r n)

/-- Helper for `repRange`: alternatives `r{lo+k}, r{lo+k-1}, …, r{lo}`,
longer counts first (greedy preference). -/
def Regex.repRangeAux (r : Regex) (lo : Nat) : Nat → Regex
  | 0 => Regex.repExact r lo
  | k + 1 => .alt (Regex.repExact r (lo + (k + 1))) (Regex.repRangeAux r lo k)

/-- The greedy bounded repetition `r{lo,hi}` (and `r?` = `r{0,1}`),
expanded as an alternation preferring longer matches, which is exactly
the backtracking priority of Python's greedy quantifier over the
single-character bodies the source's patterns use. -/
def Regex.repRange (r : Regex) (lo hi : Nat) : Regex :=
  Regex.repRangeAux r lo (hi - lo)

/-- A partial-match result: the characters consumed, whether the last
character before the remaining input is a word character (for `\b`), and
the remaining input. -/
abbrev MResult := List Char × Bool × List Char

/-- Concatenation of the results of `f` over a list, in order (the
backtracking search order through alternatives). -/
def catMap (f : α → List β) : List α → List β
  | [] => []
  | a :: as => f a ++ catMap f as

/-- Backtracking matcher.  `matchList r pw s` lists every way `r` can
consume a prefix of `s`, in Python's backtracking priority order; `pw`
says whether the character immediately before `s` is a word character
(`false` at the start of the input).  Each result records the consumed
characters, the word-character status of the last character before the
remainder, and the remainder. -/
def matchList : Regex → Bool → List Char → List MResult
  | .eps, pw, rest => [([], pw, rest)]
  | .cls cc, _, rest =>
    match rest with
    | [] => []
    | c :: t => cond (cc.test c) [([c], isWordChar c, t)] []
  | .wb, pw, rest => cond (pw != headWord rest) [([], pw, rest)] []
  | .seq a b, pw, rest =>
    catMap (fun x => (matchList b x.2.1 x.2.2).map (fun y => (x.1 ++ y.1, y.2.1, y.2.2)))
      (matchList a pw rest)
  | .alt a b, pw, rest => matchList a pw rest ++ matchList b pw rest

/-- Scanner underlying `findall`: at each position try the pattern; on a
match emit the matched characters and continue after them (after one
character if the match was empty), otherwise slide one character to the
right, updating the word-character status of the preceding character.
`fuel` bounds the recursion (input length + 1 always suffices). -/
def findallAux (r : Regex) : Nat → Bool → List Char → List (List Char)
  | 0, _, _ => []
  | fuel + 1, pw, s =>
    match (matchList r pw s).head? with
    | some (m, p, t) =>
      match m with
      | [] => [] :: (match s with | [] => [] | c :: s' => findallAux r fuel (isWordChar c) s')
      | _ => m :: findallAux r fuel p t
    | none =>
      match s with
      | [] => []
      | c :: s' => findallAux r fuel (isWordChar c) s'

/-- Model of Python's `re.findall(pattern, text)` for the source's
group-free patterns: the list of non-overlapping matches, scanning left
to right, each match the highest-priority one at its position. -/
def findall (r : Regex) (s : String) : List String :=
  (findallAux r (s.data.length + 1) false s.data).map (fun l => String.mk l)

/-- Prefix test on lists of characters. -/
def listIsPrefixOf : List Char → List Char → Bool
  | [], _ => true
  | _ :: _, [] => false
  | a :: as, b :: bs => a == b && listIsPrefixOf as bs

/-- Model of Python's substring test `needle in hay` on lists of
characters: the needle is a prefix of some suffix. -/
def listContainsSub (needle : List Char) : List Char → Bool
  | [] => needle.isEmpty
  | c :: t => listIsPrefixOf needle (c :: t) || listContainsSub needle t

/-- Python's `needle in hay` on strings. -/
def containsSub (hay needle : String) : Bool :=
  listContainsSub needle.data hay.data

/-- Character-wise (ASCII) model of Python's `str.upper()`. -/
def strUpper (s : String) : String :=
  String.mk (s.data.map Char.toUpper)

/-- Python's prefix slice `s[:n]` (character-based, as Python strings are
sequences of code points). -/
def pySlice (s : String) (n : Nat) : String :=
  String.mk (s.data.take n)

/-!
### The country catalog (`COUNTRY_RULES`, src/app.py lines 14-50)

The source dictionary has six entries, but the `"United States of
America"` entry (lines 45-50) is syntactically malformed (`"currency:
"USD"` — an unterminated key and a missing closing brace), so the
supported jurisdictions are the five well-formed entries.  Each pattern
field is transcribed twice: as a `Regex` AST for matching and as the
literal pattern text (used verbatim in the failure message of
`check_tax_id`).
-/

/-- The five well-formed country keys of `COUNTRY_RULES`. -/
inductive Country where
  | Chile
  | Brazil
  | Argentina
  | Spain
  | Portugal
deriving DecidableEq

/-- The dictionary key of a country, as interpolated into messages. -/
def countryName : Country → String
  | .Chile => "Chile"
  | .Brazil => "Brazil"
  | .Argentina => "Argentina"
  | .Spain => "Spain"
  | .Portugal => "Portugal"

/-- One `COUNTRY_RULES` entry. -/
structure CountryRule where
  tax_id_pattern : Regex
  tax_id_pattern_text : String
  tax_id_name : String
  required_fields : List String
  currency : String

/-- Digit class `\d`. -/
def digitC : Regex := .cls .digit

/-- Literal character atom. -/
def litC (c : Char) : Regex := .cls (.lit c)

/-- Chile: `\b\d{1,2}\.\d{3}\.\d{3}-[\dkK]\b`. -/
def chileTaxPattern : Regex :=
  seqAll [.wb, Regex.repRange digitC 1 2, litC '.', Regex.repExact digitC 3,
    litC '.', Regex.repExact digitC 3, litC '-',
    .cls (.union .digit (.union (.lit 'k') (.lit 'K'))), .wb]

/-- Brazil: `\b\d{2}\.\d{3}\.\d{3}/\d{4}-\d{2}\b`. -/
def brazilTaxPattern : Regex :=
  seqAll [.wb, Regex.repExact digitC 2, litC '.', Regex.repExact digitC 3,
    litC '.', Regex.repExact digitC 3, litC '/', Regex.repExact digitC 4,
    litC '-', Regex.repExact digitC 2, .wb]

/-- Argentina: `\b\d{2}-\d{8}-\d\b`. -/
def argentinaTaxPattern : Regex :=
  seqAll [.wb, Regex.repExact digitC 2, litC '-', Regex.repExact digitC 8,
    litC '-', digitC, .wb]

/-- Spain: `\b[A-Z]\d{7}[A-Z0-9]\b|\b\d{8}[A-Z]\b` (top-level alternation). -/
def spainTaxPattern : Regex :=
  .alt
    (seqAll [.wb, .cls (.range 'A' 'Z'), Regex.repExact digitC 7,
      .cls (.union (.range 'A' 'Z') .digit), .wb])
    (seqAll [.wb, Regex.repExact digitC 8, .cls (.range 'A' 'Z'), .wb])

/-- Portugal: `\b\d{9}\b`. -/
def portugalTaxPattern : Regex :=
  seqAll [.wb, Regex.repExact digitC 9, .wb]

/-- The `COUNTRY_RULES` mapping (src/app.py lines 14-44); the pattern text
strings write the literal braces of the source patterns as `\x7b`/`\x7d`. -/
def COUNTRY_RULES : Country → CountryRule
  | .Chile =>
    { tax_id_pattern := chileTaxPattern
      tax_id_pattern_text := "\\b\\d\x7b1,2\x7d\\.\\d\x7b3\x7d\\.\\d\x7b3\x7d-[\\dkK]\\b"
      tax_id_name := "RUT"
      required_fields := ["RUT", "Incoterm", "HS Code"]
      currency := "CLP" }
  | .Brazil =>
    { tax_id_pattern := brazilTaxPattern
      tax_id_pattern_text := "\\b\\d\x7b2\x7d\\.\\d\x7b3\x7d\\.\\d\x7b3\x7d/\\d\x7b4\x7d-\\d\x7b2\x7d\\b"
      tax_id_name := "CNPJ"
      required_fields := ["CNPJ", "NCM", "Incoterm"]
      currency := "BRL" }
  | .Argentina =>
    { tax_id_pattern := argentinaTaxPattern
      tax_id_pattern_text := "\\b\\d\x7b2\x7d-\\d\x7b8\x7d-\\d\\b"
      tax_id_name := "CUIT"
      required_fields := ["CUIT", "Incoterm", "NCM"]
      currency := "ARS" }
  | .Spain =>
    { tax_id_pattern := spainTaxPattern
      tax_id_pattern_text := "\\b[A-Z]\\d\x7b7\x7d[A-Z0-9]\\b|\\b\\d\x7b8\x7d[A-Z]\\b"
      tax_id_name := "NIF/CIF"
      required_fields := ["NIF", "Incoterm", "HS Code"]
      currency := "EUR" }
  | .Portugal =>
    { tax_id_pattern := portugalTaxPattern
      tax_id_pattern_text := "\\b\\d\x7b9\x7d\\b"
      tax_id_name := "NIF"
      required_fields := ["NIF", "Incoterm", "HS Code"]
      currency := "EUR" }

/-- Valid Incoterms (2020), src/app.py lines 53-56, in the source's list
order. -/
def VALID_INCOTERMS : List String :=
  ["EXW", "FCA", "CPT", "CIP", "DAP", "DPU", "DDP",
   "FAS", "FOB", "CFR", "CIF"]

/-!
### The rules-based checks (src/app.py lines 59-120)
-/

/-- `check_tax_id` (lines 59-68): find all matches of the country's
pattern; the first match is reported, no match is a critical failure. -/
def check_tax_id (text : String) (country : Country) : Bool × String :=
  let pattern := (COUNTRY_RULES country).tax_id_pattern
  let tax_id_name := (COUNTRY_RULES country).tax_id_name
  match findall pattern text with
  | m :: _ => (true, "✅ " ++ tax_id_name ++ " found: " ++ m)
  | [] => (false, "❌ CRITICAL: Missing " ++ tax_id_name ++ " (format: "
      ++ (COUNTRY_RULES country).tax_id_pattern_text ++ ")")

/-- `check_incoterm` (lines 70-78): uppercase the text, keep the valid
Incoterms occurring in it (in the canonical list order), report the first
or a critical failure.  The third component models the returned
`found_terms[0]` / `None`. -/
def check_incoterm (text : String) : Bool × String × Option String :=
  let text_upper := strUpper text
  let found_terms := VALID_INCOTERMS.filter (fun term => containsSub text_upper term)
  match found_terms with
  | t :: _ => (true, "✅ Incoterm found: " ++ t, some t)
  | [] => (false, "❌ CRITICAL: Missing Incoterm", none)

/-- The HS/NCM pattern `\b\d{4}[\.\s]?\d{2}[\.\s]?\d{0,4}\b`
(line 83). -/
def hsPattern : Regex :=
  seqAll [.wb, Regex.repExact digitC 4, Regex.repRange (.cls (.union (.lit '.') .space)) 0 1,
    Regex.repExact digitC 2, Regex.repRange (.cls (.union (.lit '.') .space)) 0 1,
    Regex.repRange digitC 0 4, .wb]

/-- `check_hs_codes` (lines 80-89): count matches of the loose numeric
pattern; zero matches is a warning. -/
def check_hs_codes (text : String) : Bool × String :=
  match findall hsPattern text with
  | [] => (false, "⚠️ WARNING: No HS/NCM codes detected")
  | ms => (true, "✅ HS/NCM codes found: " ++ toString (ms.length) ++ " items")

/-- The `results` dictionary built by `rules_based_validation`
(the `ValidationReport` of the spec). -/
structure RulesResults where
  critical_errors : List String
  warnings : List String
  passed_checks : List String
deriving DecidableEq

/-- `rules_based_validation` (lines 91-120): run the TaxId, Incoterm and
HsCode checks in that order, appending each message to the passed list on
success, to the critical list on TaxId/Incoterm failure, and to the
warning list on HsCode failure. -/
def rules_based_validation (text : String) (country : Country) : RulesResults :=
  let results : RulesResults := ⟨[], [], []⟩
  let r1 := check_tax_id text country
  let results := cond r1.1 { results with passed_checks := results.passed_checks ++ [r1.2] }
    { results with critical_errors := results.critical_errors ++ [r1.2] }
  let r2 := check_incoterm text
  let results := cond r2.1 { results with passed_checks := results.passed_checks ++ [r2.2.1] }
    { results with critical_errors := results.critical_errors ++ [r2.2.1] }
  let r3 := check_hs_codes text
  let results := cond r3.1 { results with passed_checks := results.passed_checks ++ [r3.2] }
    { results with warnings := results.warnings ++ [r3.2] }
  results

/-!
### Verdict, contextual-review payload and report artifact
(module-level UI code, src/app.py lines 376-449)
-/

/-- The audit verdict (spec `AuditVerdict`), derived at lines 412-420:
the three summary branches, carrying the count the displayed message
interpolates. -/
inductive AuditVerdict where
  | Passed
  | Failed (count : Nat)
  | NeedsReview (count : Nat)
deriving DecidableEq

/-- Verdict derivation (lines 412-420): `critical_count == 0 and
warning_count == 0` shows the passed banner; otherwise `critical_count >
0` shows the failure banner with the critical count; otherwise the
review banner with the warning count. -/
def audit_verdict (rules_results : RulesResults) : AuditVerdict :=
  let critical_count := rules_results.critical_errors.length
  let warning_count := rules_results.warnings.length
  if critical_count = 0 ∧ warning_count = 0 then .Passed
  else if critical_count > 0 then .Failed critical_count
  else .NeedsReview warning_count

/-- The apostrophe character (written via its code point to keep string
literals plain). -/
def apos : Char := Char.ofNat 39

/-- Python `repr` of one engine message, as it appears when a list of
messages is interpolated into an f-string: quoted with apostrophes,
backslashes doubled (the engine's messages contain no apostrophes,
newlines or other characters `repr` would escape). -/
def pyReprStr (s : String) : String :=
  String.mk ([apos] ++ catMap (fun c => cond (c == '\\') ['\\', '\\'] [c]) s.data ++ [apos])

/-- Python `str` of a list of strings, as interpolated into an
f-string. -/
def pyStrList (l : List String) : String :=
  "[" ++ String.intercalate ", " (l.map pyReprStr) ++ "]"

/-- The prompt `ai_deep_audit` (lines 123-177) submits to the external
contextual-review collaborator: the f-string of lines 127-174, with the
document text capped to its first 8000 characters (`text[:8000]`,
line 173). -/
def ai_deep_audit_prompt (text : String) (country : Country) (rules_results : RulesResults) : String :=
  "You are an expert Customs Compliance Auditor specializing in " ++ countryName country
  ++ " import/export regulations.\n\nRULES-BASED FINDINGS:\nCritical Errors: "
  ++ pyStrList rules_results.critical_errors
  ++ "\nWarnings: " ++ pyStrList rules_results.warnings
  ++ "\n\nYOUR TASK: Perform a deep contextual audit of this invoice. Focus on:\n\n"
  ++ "1. **Product Description Quality**\n"
  ++ "   - Are descriptions specific enough for customs classification?\n"
  ++ "   - Check for vague terms like \"parts\", \"equipment\", \"goods\", \"accessories\"\n"
  ++ "   - Flag descriptions under 10 words or missing material/use details\n\n"
  ++ "2. **Quantity & Value Consistency**\n"
  ++ "   - Do quantities match across line items?\n"
  ++ "   - Are unit prices reasonable?\n"
  ++ "   - Any missing totals or calculation errors?\n\n"
  ++ "3. **Country-Specific Red Flags for " ++ countryName country ++ "**\n"
  ++ "   - Missing required certifications or licenses\n"
  ++ "   - Restricted/prohibited goods indicators\n"
  ++ "   - Currency mismatch with expected " ++ (COUNTRY_RULES country).currency ++ "\n\n"
  ++ "4. **Additional Missing Information**\n"
  ++ "   - Buyer/Seller complete addresses\n"
  ++ "   - Invoice date and number\n"
  ++ "   - Payment terms\n"
  ++ "   - Country of origin per item\n\n"
  ++ "OUTPUT FORMAT (use this exact structure):\n### AI Audit Results\n\n"
  ++ "**High Priority Issues:**\n- [List critical issues found, or write \"None detected\"]\n\n"
  ++ "**Medium Priority Warnings:**\n- [List concerning items that need review]\n\n"
  ++ "**Low Priority Notes:**\n- [Minor improvements or observations]\n\n"
  ++ "**Confidence Score:** X/10\n[Explain your confidence level in this audit]\n\n"
  ++ "---\nINVOICE TEXT:\n" ++ pySlice text 8000 ++ "\n"

/-- The spec's `AuditResult`: everything the rendered artifact depends
on.  `timestamp` holds the already-formatted
`datetime.now().strftime(...)` value (line 426), made an explicit field
as in the spec's data model. -/
structure AuditResult where
  country : Country
  rules_results : RulesResults
  ai_report : String
  timestamp : String
  docName : String

/-- The downloadable report artifact `report_text` (lines 424-442):
header, rules-based section with counts and newline-joined message lists
(`chr(10).join`), then the AI narrative verbatim. -/
def report_text (a : AuditResult) : String :=
  "\nLATAM SUPPLY CHAIN WATCHDOG - AUDIT REPORT\nGenerated: " ++ a.timestamp
  ++ "\nCountry: " ++ countryName a.country
  ++ "\nDocument: " ++ a.docName
  ++ "\n\n=== RULES-BASED VALIDATION ===\nCritical Errors: "
  ++ toString a.rules_results.critical_errors.length ++ "\n"
  ++ String.intercalate "\n" a.rules_results.critical_errors
  ++ "\n\nWarnings: " ++ toString a.rules_results.warnings.length ++ "\n"
  ++ String.intercalate "\n" a.rules_results.warnings
  ++ "\n\nPassed Checks: " ++ toString a.rules_results.passed_checks.length ++ "\n"
  ++ String.intercalate "\n" a.rules_results.passed_checks
  ++ "\n\n=== AI DEEP AUDIT ===\n" ++ a.ai_report ++ "\n"

/-- The audit run triggered by the button (lines 376-449).  The external
collaborator call (`genai` inside `ai_deep_audit`, wrapped in
`try/except` at lines 403-408) is modelled as a capability from the
submitted prompt to `Option String`; `none` models a raised/timed-out
call.  `ai_report` is assigned only inside the `try` block (line 405),
so when the call raises, the name stays unbound and evaluating the
`report_text` f-string (line 441) raises `NameError`: the artifact is
therefore `none` exactly when the collaborator call fails, while the
summary verdict (lines 412-420, executed before line 424) is computed
either way.  Returns (rules results, verdict, artifact). -/
def audit_run (text : String) (country : Country) (docName now : String)
    (ai : String → Option String) : RulesResults × AuditVerdict × Option String :=
  let rules_results := rules_based_validation text country
  let ai_report := ai (ai_deep_audit_prompt text country rules_results)
  let verdict := audit_verdict rules_results
  let artifact := ai_report.map (fun rep =>
    report_text ⟨country, rules_results, rep, now, docName⟩)
  (rules_results, verdict, artifact)

/-!
### Engine lemmas

Facts about `findall` used to settle the universally-quantified claims:
a match anywhere in the input makes `findall` non-empty, and an input
none of whose suffixes matches makes it empty.
-/

/-- Word-character status of the character preceding the suffix that
follows `l`, when the character preceding `l` has status `pw` (`pw` for
an empty `l`, the status of `l`'s last character otherwise). -/
def prevWordAfter (pw : Bool) : List Char → Bool
  | [] => pw
  | c :: l => prevWordAfter (isWordChar c) l

lemma prevWordAfter_cons (pw : Bool) (c : Char) (l : List Char) :
    prevWordAfter pw (c :: l) = prevWordAfter (isWordChar c) l := rfl

lemma findallAux_ne_nil (r : Regex) :
    ∀ (l : List Char) (fuel : Nat) (pw : Bool) (t : List Char),
      l.length < fuel →
      matchList r (prevWordAfter pw l) t ≠ [] →
      findallAux r fuel pw (l ++ t) ≠ [] := by
  intro l
  induction l with
  | nil =>
    intro fuel pw t hf hm
    cases fuel with
    | zero => omega
    | succ n =>
      obtain ⟨x, xs, hx⟩ := List.exists_cons_of_ne_nil hm
      have hhead : (matchList r pw t).head? = some x := by
        rw [show matchList r pw t = matchList r (prevWordAfter pw ([] : List Char)) t from rfl,
          hx]
        rfl
      obtain ⟨m, p, t'⟩ := x
      cases m with
      | nil => simp [findallAux, hhead]
      | cons a as => simp [findallAux, hhead]
  | cons c l' ih =>
    intro fuel pw t hf hm
    cases fuel with
    | zero => simp at hf
    | succ n =>
      rw [prevWordAfter_cons] at hm
      have hrec : findallAux r n (isWordChar c) (l' ++ t) ≠ [] :=
        ih n (isWordChar c) t (by simpa using Nat.lt_of_succ_lt_succ hf) hm
      cases hhead : (matchList r pw (c :: (l' ++ t))).head? with
      | some x =>
        obtain ⟨m, p, t'⟩ := x
        cases m with
        | nil => simp [findallAux, hhead]
        | cons a as => simp [findallAux, hhead]
      | none => simpa [findallAux, hhead] using hrec

lemma findall_ne_nil (r : Regex) (s : String) (l t : List Char)
    (h : s.data = l ++ t) (hm : matchList r (prevWordAfter false l) t ≠ []) :
    findall r s ≠ [] := by
  unfold findall
  rw [Ne, List.map_eq_nil_iff, h]
  exact findallAux_ne_nil r l ((l ++ t).length + 1) false t
    (by rw [List.length_append]; omega) hm

lemma findallAux_eq_nil (r : Regex) :
    ∀ (fuel : Nat) (pw : Bool) (s : List Char),
      (∀ pw' t, t <:+ s → matchList r pw' t = []) →
      findallAux r fuel pw s = [] := by
  intro fuel
  induction fuel with
  | zero => intro pw s _; rfl
  | succ n ih =>
    intro pw s h
    have h0 : matchList r pw s = [] := h pw s (List.suffix_refl s)
    cases s with
    | nil => simp [findallAux, h0]
    | cons c s' =>
      have hrec : findallAux r n (isWordChar c) s' = [] :=
        ih (isWordChar c) s' (fun pw' t ht => h pw' t (ht.trans (List.suffix_cons c s')))
      simpa [findallAux, h0] using hrec

lemma findall_eq_nil (r : Regex) (s : String)
    (h : ∀ pw t, t <:+ s.data → matchList r pw t = []) :
    findall r s = [] := by
  unfold findall
  rw [List.map_eq_nil_iff]
  exact findallAux_eq_nil r (s.data.length + 1) false s.data h

/-!
### Substring lemmas for the Incoterm check
-/

lemma isPrefixOf_append_self (n r : List Char) : listIsPrefixOf n (n ++ r) = true := by
  induction n with
  | nil => rfl
  | cons a as ih => simpa [listIsPrefixOf] using ih

lemma listContainsSub_nil_needle (hay : List Char) :
    listContainsSub [] hay = true := by
  cases hay with
  | nil => rfl
  | cons c t => simp [listContainsSub, listIsPrefixOf]

lemma listContainsSub_append (n l r : List Char) :
    listContainsSub n (l ++ n ++ r) = true := by
  induction l with
  | nil =>
    cases n with
    | nil => simpa using listContainsSub_nil_needle r
    | cons a as =>
      have h1 := isPrefixOf_append_self (a :: as) r
      rw [List.cons_append] at h1
      simp [listContainsSub, h1]
  | cons c l' ih =>
    rw [List.append_assoc] at ih
    simp [listContainsSub, ih]

/-!
### Whitespace lemmas

Used for the amended empty/whitespace-document claim: no tax-ID pattern,
Incoterm token or HS pattern can match inside text consisting only of
whitespace characters.
-/

lemma ws_char_facts (c : Char) (h : c.isWhitespace = true) :
    isWordChar c = false ∧ CClass.test .digit c = false ∧
    CClass.test (.range 'A' 'Z') c = false := by
  have hc := h
  simp only [Char.isWhitespace, Bool.or_eq_true, beq_iff_eq, decide_eq_true_eq] at hc
  rcases hc with ((hc | hc) | hc) | hc <;> subst hc <;>
    exact ⟨by decide, by decide, by decide⟩

lemma ws_toUpper (c : Char) (h : c.isWhitespace = true) :
    (c.toUpper).isWhitespace = true := by
  have hc := h
  simp only [Char.isWhitespace, Bool.or_eq_true, beq_iff_eq, decide_eq_true_eq] at hc
  rcases hc with ((hc | hc) | hc) | hc <;> subst hc <;> decide

lemma listContainsSub_ws (c0 : Char) (n : List Char) (hc0 : c0.isWhitespace = false) :
    ∀ t : List Char, (∀ c ∈ t, c.isWhitespace = true) → listContainsSub (c0 :: n) t = false := by
  intro t
  induction t with
  | nil => intro _; rfl
  | cons c t' ih =>
    intro h
    have hne : (c0 == c) = false := by
      apply beq_eq_false_iff_ne.mpr
      intro he
      rw [he] at hc0
      rw [h c (List.mem_cons_self c t')] at hc0
      simp at hc0
    have ht' := ih (fun c hc => h c (List.mem_cons_of_mem _ hc))
    simp [listContainsSub, listIsPrefixOf, hne, ht']

/-!
### Word-bounded occurrences

`containsWordBounded w s` captures the claims' "the text contains the
substring `w`, word-bounded": `w` occurs in `s` with no word character
immediately before or after the occurrence.
-/

def containsWordBounded (w s : String) : Prop :=
  ∃ l r : List Char, s.data = l ++ w.data ++ r ∧
    prevWordAfter false l = false ∧ headWord r = false

/-- Chile's RUT pattern matches at a position holding `12.345.678-5`
followed by a non-word character (or the end), at a non-word-preceded
position. -/
lemma chile_match_head (r : List Char) (hr : headWord r = false) :
    matchList chileTaxPattern false
      ('1' :: '2' :: '.' :: '3' :: '4' :: '5' :: '.' :: '6' :: '7' :: '8' :: '-' :: '5' :: r)
      ≠ [] := by
  cases r with
  | nil => decide
  | cons c r' =>
    have hc : (c.isAlphanum || c == '_') = false := by
      simpa [headWord, isWordChar] using hr
    simp [chileTaxPattern, seqAll, Regex.repRange, Regex.repRangeAux, Regex.repExact,
      matchList, catMap, CClass.test, isWordChar, headWord, digitC, litC, hc]

/-- The HS/NCM pattern matches at a position holding `8471.30.0000`
followed by a non-word character (or the end), at a non-word-preceded
position. -/
lemma hs_match_head (r : List Char) (hr : headWord r = false) :
    matchList hsPattern false
      ('8' :: '4' :: '7' :: '1' :: '.' :: '3' :: '0' :: '.' :: '0' :: '0' :: '0' :: '0' :: r)
      ≠ [] := by
  cases r with
  | nil => decide
  | cons c r' =>
    have hc : (c.isAlphanum || c == '_') = false := by
      simpa [headWord, isWordChar] using hr
    simp [hsPattern, seqAll, Regex.repRange, Regex.repRangeAux, Regex.repExact,
      matchList, catMap, CClass.test, isWordChar, headWord, digitC, litC, hc]

/-- A word-bounded occurrence of `12.345.678-5` makes the Chile tax-ID
check pass. -/
lemma check_tax_id_chile_passes (text : String)
    (h : containsWordBounded "12.345.678-5" text) :
    (check_tax_id text .Chile).1 = true := by
  obtain ⟨l, r, hs, hl, hr⟩ := h
  have hw : "12.345.678-5".data =
      ['1', '2', '.', '3', '4', '5', '.', '6', '7', '8', '-', '5'] := rfl
  have hm : matchList chileTaxPattern (prevWordAfter false l) ("12.345.678-5".data ++ r) ≠ [] := by
    rw [hl, hw]
    exact chile_match_head r hr
  have hf : findall chileTaxPattern text ≠ [] :=
    findall_ne_nil chileTaxPattern text l ("12.345.678-5".data ++ r)
      (by rw [hs, List.append_assoc]) hm
  obtain ⟨m, ms, hms⟩ := List.exists_cons_of_ne_nil hf
  simp [check_tax_id, COUNTRY_RULES, hms]

/-- A word-bounded occurrence of `8471.30.0000` makes the HS-code check
pass. -/
lemma check_hs_codes_passes (text : String)
    (h : containsWordBounded "8471.30.0000" text) :
    (check_hs_codes text).1 = true := by
  obtain ⟨l, r, hs, hl, hr⟩ := h
  have hw : "8471.30.0000".data =
      ['8', '4', '7', '1', '.', '3', '0', '.', '0', '0', '0', '0'] := rfl
  have hm : matchList hsPattern (prevWordAfter false l) ("8471.30.0000".data ++ r) ≠ [] := by
    rw [hl, hw]
    exact hs_match_head r hr
  have hf : findall hsPattern text ≠ [] :=
    findall_ne_nil hsPattern text l ("8471.30.0000".data ++ r)
      (by rw [hs, List.append_assoc]) hm
  obtain ⟨m, ms, hms⟩ := List.exists_cons_of_ne_nil hf
  simp [check_hs_codes, hms]

/-- Any occurrence of `FOB` (word-bounded or not) makes the Incoterm
check pass. -/
lemma check_incoterm_passes (text : String) (l r : List Char)
    (h : text.data = l ++ "FOB".data ++ r) :
    (check_incoterm text).1 = true := by
  have hup : (strUpper text).data =
      l.map Char.toUpper ++ "FOB".data ++ r.map Char.toUpper := by
    simp [strUpper, h]
  have hcontains : containsSub (strUpper text) "FOB" = true := by
    rw [containsSub, hup]
    exact listContainsSub_append "FOB".data (l.map Char.toUpper) (r.map Char.toUpper)
  have hmem : "FOB" ∈ VALID_INCOTERMS.filter (fun term => containsSub (strUpper text) term) :=
    List.mem_filter.mpr ⟨by decide, hcontains⟩
  have hne := List.ne_nil_of_mem hmem
  obtain ⟨t, ts, hts⟩ := List.exists_cons_of_ne_nil hne
  simp only [check_incoterm, hts]

/-!
### Whitespace-only inputs defeat every check

Each catalog pattern begins, after its word boundary, with a mandatory
digit or uppercase-letter class, so it cannot match at any position of a
whitespace-only text; no Incoterm token occurs in such a text either.
-/

lemma ws_no_match_chile (pw : Bool) (t : List Char)
    (h : ∀ c ∈ t, c.isWhitespace = true) :
    matchList chileTaxPattern pw t = [] := by
  cases t with
  | nil => cases pw <;> decide
  | cons c t' =>
    obtain ⟨h1, h2, _⟩ := ws_char_facts c (h c (List.mem_cons_self c t'))
    cases pw <;>
      simp [chileTaxPattern, seqAll, Regex.repRange, Regex.repRangeAux, Regex.repExact,
        matchList, catMap, headWord, digitC, litC, h1, h2]

lemma ws_no_match_brazil (pw : Bool) (t : List Char)
    (h : ∀ c ∈ t, c.isWhitespace = true) :
    matchList brazilTaxPattern pw t = [] := by
  cases t with
  | nil => cases pw <;> decide
  | cons c t' =>
    obtain ⟨h1, h2, _⟩ := ws_char_facts c (h c (List.mem_cons_self c t'))
    cases pw <;>
      simp [brazilTaxPattern, seqAll, Regex.repRange, Regex.repRangeAux, Regex.repExact,
        matchList, catMap, headWord, digitC, litC, h1, h2]

lemma ws_no_match_argentina (pw : Bool) (t : List Char)
    (h : ∀ c ∈ t, c.isWhitespace = true) :
    matchList argentinaTaxPattern pw t = [] := by
  cases t with
  | nil => cases pw <;> decide
  | cons c t' =>
    obtain ⟨h1, h2, _⟩ := ws_char_facts c (h c (List.mem_cons_self c t'))
    cases pw <;>
      simp [argentinaTaxPattern, seqAll, Regex.repRange, Regex.repRangeAux, Regex.repExact,
        matchList, catMap, headWord, digitC, litC, h1, h2]

lemma ws_no_match_spain (pw : Bool) (t : List Char)
    (h : ∀ c ∈ t, c.isWhitespace = true) :
    matchList spainTaxPattern pw t = [] := by
  cases t with
  | nil => cases pw <;> decide
  | cons c t' =>
    obtain ⟨h1, h2, h3⟩ := ws_char_facts c (h c (List.mem_cons_self c t'))
    cases pw <;>
      simp [spainTaxPattern, seqAll, Regex.repRange, Regex.repRangeAux, Regex.repExact,
        matchList, catMap, headWord, digitC, litC, h1, h2, h3]

lemma ws_no_match_portugal (pw : Bool) (t : List Char)
    (h : ∀ c ∈ t, c.isWhitespace = true) :
    matchList portugalTaxPattern pw t = [] := by
  cases t with
  | nil => cases pw <;> decide
  | cons c t' =>
    obtain ⟨h1, h2, _⟩ := ws_char_facts c (h c (List.mem_cons_self c t'))
    cases pw <;>
      simp [portugalTaxPattern, seqAll, Regex.repRange, Regex.repRangeAux, Regex.repExact,
        matchList, catMap, headWord, digitC, litC, h1, h2]

lemma ws_no_match_hs (pw : Bool) (t : List Char)
    (h : ∀ c ∈ t, c.isWhitespace = true) :
    matchList hsPattern pw t = [] := by
  cases t with
  | nil => cases pw <;> decide
  | cons c t' =>
    obtain ⟨h1, h2, _⟩ := ws_char_facts c (h c (List.mem_cons_self c t'))
    cases pw <;>
      simp [hsPattern, seqAll, Regex.repRange, Regex.repRangeAux, Regex.repExact,
        matchList, catMap, headWord, digitC, litC, h1, h2]

lemma findall_tax_ws (text : String) (country : Country)
    (h : ∀ c ∈ text.data, c.isWhitespace = true) :
    findall (COUNTRY_RULES country).tax_id_pattern text = [] := by
  cases country
  case Chile =>
    exact findall_eq_nil _ _
      (fun pw t ht => ws_no_match_chile pw t (fun c hc => h c (ht.subset hc)))
  case Brazil =>
    exact findall_eq_nil _ _
      (fun pw t ht => ws_no_match_brazil pw t (fun c hc => h c (ht.subset hc)))
  case Argentina =>
    exact findall_eq_nil _ _
      (fun pw t ht => ws_no_match_argentina pw t (fun c hc => h c (ht.subset hc)))
  case Spain =>
    exact findall_eq_nil _ _
      (fun pw t ht => ws_no_match_spain pw t (fun c hc => h c (ht.subset hc)))
  case Portugal =>
    exact findall_eq_nil _ _
      (fun pw t ht => ws_no_match_portugal pw t (fun c hc => h c (ht.subset hc)))

lemma check_incoterm_ws (text : String)
    (h : ∀ c ∈ text.data, c.isWhitespace = true) :
    check_incoterm text = (false, "❌ CRITICAL: Missing Incoterm", none) := by
  have hupper : ∀ c ∈ (strUpper text).data, c.isWhitespace = true := by
    intro c hc
    have hc' : c ∈ text.data.map Char.toUpper := by simpa [strUpper] using hc
    obtain ⟨d, hd, hdc⟩ := List.mem_map.mp hc'
    exact hdc ▸ ws_toUpper d (h d hd)
  have hfilter : VALID_INCOTERMS.filter (fun term => containsSub (strUpper text) term) = [] := by
    rw [List.filter_eq_nil_iff]
    intro term hterm
    simp only [Bool.not_eq_true]
    fin_cases hterm <;> exact listContainsSub_ws _ _ (by decide) _ hupper
  simp [check_incoterm, hfilter]

/-- Auxiliary: the head of a filtered list is the first element found. -/
lemma head_filter_eq_find (p : String → Bool) (l : List String) :
    (l.filter p).head? = l.find? p := by
  simp

/-!
## The claims
-/

/-- C1: for every validation report, the derived audit verdict follows
the fixed severity precedence: a non-empty critical-error list yields
`Failed` carrying the critical count; otherwise a non-empty warning list
yields `NeedsReview` carrying the warning count; otherwise `Passed`. -/
theorem C1_verdict_precedence (r : RulesResults) :
    (r.critical_errors ≠ [] →
      audit_verdict r = .Failed r.critical_errors.length) ∧
    (r.critical_errors = [] → r.warnings ≠ [] →
      audit_verdict r = .NeedsReview r.warnings.length) ∧
    (r.critical_errors = [] → r.warnings = [] → audit_verdict r = .Passed) := by
  obtain ⟨cs, ws, ps⟩ := r
  refine ⟨?_, ?_, ?_⟩
  · intro h
    cases cs with
    | nil => exact absurd rfl h
    | cons a l => simp [audit_verdict]
  · intro hc hw
    subst hc
    cases ws with
    | nil => exact absurd rfl hw
    | cons a l => simp [audit_verdict]
  · intro hc hw
    subst hc
    subst hw
    simp [audit_verdict]

/-- C1 witness: a report with one critical error is `Failed 1`. -/
theorem C1_witness :
    (⟨["bad"], [], []⟩ : RulesResults).critical_errors ≠ [] ∧
    audit_verdict ⟨["bad"], [], []⟩ = .Failed 1 :=
  ⟨by decide, (C1_verdict_precedence ⟨["bad"], [], []⟩).1 (by decide)⟩

/-- C2 counterexample: on the empty document (and any country — Chile
shown), the engine does not fail with an `EmptyDocument` error: no such
error path exists in `rules_based_validation`, which runs all three
checks and produces a full report (two critical errors and a warning)
instead of producing no report. -/
theorem C2_counterexample :
    rules_based_validation "" .Chile =
      ⟨["❌ CRITICAL: Missing RUT (format: \\b\\d\x7b1,2\x7d\\.\\d\x7b3\x7d\\.\\d\x7b3\x7d-[\\dkK]\\b)",
        "❌ CRITICAL: Missing Incoterm"],
       ["⚠️ WARNING: No HS/NCM codes detected"], []⟩ := by decide

/-- C2 amended: for every input text that is empty or consists only of
whitespace, and for every supported country, the validation engine does
NOT fail: it runs the three checks, which all fail (TaxId and Incoterm
critically, HsCode as a warning), and it produces exactly that report. -/
theorem C2_amended_whitespace_report (text : String) (country : Country)
    (h : ∀ c ∈ text.data, c.isWhitespace = true) :
    rules_based_validation text country =
      ⟨["❌ CRITICAL: Missing " ++ (COUNTRY_RULES country).tax_id_name ++ " (format: "
          ++ (COUNTRY_RULES country).tax_id_pattern_text ++ ")",
        "❌ CRITICAL: Missing Incoterm"],
       ["⚠️ WARNING: No HS/NCM codes detected"], []⟩ := by
  have htax : check_tax_id text country =
      (false, "❌ CRITICAL: Missing " ++ (COUNTRY_RULES country).tax_id_name ++ " (format: "
        ++ (COUNTRY_RULES country).tax_id_pattern_text ++ ")") := by
    simp [check_tax_id, findall_tax_ws text country h]
  have hinc := check_incoterm_ws text h
  have hhs : check_hs_codes text = (false, "⚠️ WARNING: No HS/NCM codes detected") := by
    have hf : findall hsPattern text = [] :=
      findall_eq_nil _ _ (fun pw t ht => ws_no_match_hs pw t (fun c hc => h c (ht.subset hc)))
    simp [check_hs_codes, hf]
  simp [rules_based_validation, htax, hinc, hhs]

/-- C2 witness: a one-space document for Chile yields the full
three-failure report. -/
theorem C2_witness :
    (∀ c ∈ (" " : String).data, c.isWhitespace = true) ∧
    rules_based_validation " " .Chile =
      ⟨["❌ CRITICAL: Missing RUT (format: \\b\\d\x7b1,2\x7d\\.\\d\x7b3\x7d\\.\\d\x7b3\x7d-[\\dkK]\\b)",
        "❌ CRITICAL: Missing Incoterm"],
       ["⚠️ WARNING: No HS/NCM codes detected"], []⟩ :=
  ⟨by decide, C2_amended_whitespace_report " " .Chile (by decide)⟩

/-- C3 counterexample: the source's `VALID_INCOTERMS` is exactly the
eleven-member list the claim enumerates — not thirteen-member. -/
theorem C3_counterexample :
    VALID_INCOTERMS =
      ["EXW", "FCA", "CPT", "CIP", "DAP", "DPU", "DDP", "FAS", "FOB", "CFR", "CIF"] ∧
    VALID_INCOTERMS.length = 11 ∧ VALID_INCOTERMS.length ≠ 13 := by decide

/-- C3 amended: the Incoterm check uppercases the text and tests each
member of the fixed ELEVEN-member 2020 Incoterms list for occurrence;
when at least one term occurs, the reported term is the first matching
one in the canonical list order given, not occurrence order in the text
(`"FOB DAP"` reports `DAP`), and when none occurs the check is a
critical failure. -/
theorem C3_amended_incoterm :
    VALID_INCOTERMS.length = 11 ∧
    (∀ text : String, check_incoterm text =
      match VALID_INCOTERMS.find? (fun term => containsSub (strUpper text) term) with
      | some t => (true, "✅ Incoterm found: " ++ t, some t)
      | none => (false, "❌ CRITICAL: Missing Incoterm", none)) ∧
    (check_incoterm "FOB DAP").2.2 = some "DAP" := by
  refine ⟨by decide, ?_, by decide⟩
  intro text
  simp only [check_incoterm]
  rw [← head_filter_eq_find]
  cases hL : VALID_INCOTERMS.filter (fun term => containsSub (strUpper text) term) with
  | nil => simp [hL]
  | cons t ts => simp [hL]

/-- C5: for every input text and supported country, the engine runs the
TaxId, Incoterm, HsCode checks in that fixed order; a failed TaxId or
Incoterm check contributes its message to the critical-error list, a
failed HsCode check to the warning list, a passed check to the passed
list, in execution order, with no outcome dropped. -/
theorem C5_check_order_and_bucketing (text : String) (country : Country) :
    rules_based_validation text country =
      { critical_errors :=
          (cond (check_tax_id text country).1 [] [(check_tax_id text country).2]) ++
          (cond (check_incoterm text).1 [] [(check_incoterm text).2.1]),
        warnings := cond (check_hs_codes text).1 [] [(check_hs_codes text).2],
        passed_checks :=
          (cond (check_tax_id text country).1 [(check_tax_id text country).2] []) ++
          (cond (check_incoterm text).1 [(check_incoterm text).2.1] []) ++
          (cond (check_hs_codes text).1 [(check_hs_codes text).2] []) } := by
  cases h1 : (check_tax_id text country).1 <;>
    cases h2 : (check_incoterm text).1 <;>
      cases h3 : (check_hs_codes text).1 <;>
        simp [rules_based_validation, h1, h2, h3]

/-- C6 counterexample: Spain's NIF/CIF pattern contains letters, yet an
ID written in lower case is NOT recognized while the same ID in upper
case is: the source never passes `re.IGNORECASE`, so matching is
case-sensitive. -/
theorem C6_counterexample :
    (check_tax_id "ref a1234567b" .Spain).1 = false ∧
    (check_tax_id "ref A1234567B" .Spain).1 = true := by decide

/-- C6 amended: tax-ID patterns are matched exactly as written, i.e.
case-sensitively: Spain's pattern accepts only upper-case letters (a
lower-cased NIF/CIF is not recognized); the only case tolerance in the
catalog is Chile's explicit check-digit class `[\dkK]`, which accepts
both `k` and `K`. -/
theorem C6_amended_case_sensitive :
    check_tax_id "ref A1234567B" .Spain = (true, "✅ NIF/CIF found: A1234567B") ∧
    (check_tax_id "ref a1234567b" .Spain).1 = false ∧
    (check_tax_id "12.345.678-k" .Chile).1 = true ∧
    (check_tax_id "12.345.678-K" .Chile).1 = true := by decide

/-- C7: rendering is a pure function of the `AuditResult` value: two
results agreeing on profile, report, narrative, timestamp and document
identifier render to identical text artifacts. -/
theorem C7_render_deterministic (a b : AuditResult)
    (hc : a.country = b.country) (hr : a.rules_results = b.rules_results)
    (ha : a.ai_report = b.ai_report) (ht : a.timestamp = b.timestamp)
    (hd : a.docName = b.docName) :
    report_text a = report_text b := by
  obtain ⟨ac, ar, aa, at', ad⟩ := a
  obtain ⟨bc, br, ba, bt, bd⟩ := b
  cases hc
  cases hr
  cases ha
  cases ht
  cases hd
  rfl

/-- C7 witness: re-rendering one concrete `AuditResult` gives the same
artifact. -/
theorem C7_witness :
    report_text ⟨.Chile, ⟨[], [], []⟩, "ok", "2026-01-01 00:00:00", "inv.pdf"⟩ =
      report_text ⟨.Chile, ⟨[], [], []⟩, "ok", "2026-01-01 00:00:00", "inv.pdf"⟩ :=
  C7_render_deterministic _ _ rfl rfl rfl rfl rfl

/-- C10: for every input text and supported country, the report holds
exactly three messages across its lists (one per check); the critical
list holds only the TaxId and/or Incoterm messages (never the HsCode
one) and the warning list holds at most the HsCode message (never the
TaxId or Incoterm ones). -/
theorem C10_report_invariants (text : String) (country : Country) :
    (rules_based_validation text country).critical_errors.length +
      (rules_based_validation text country).warnings.length +
      (rules_based_validation text country).passed_checks.length = 3 ∧
    ((rules_based_validation text country).critical_errors = [] ∨
     (rules_based_validation text country).critical_errors = [(check_tax_id text country).2] ∨
     (rules_based_validation text country).critical_errors = [(check_incoterm text).2.1] ∨
     (rules_based_validation text country).critical_errors =
       [(check_tax_id text country).2, (check_incoterm text).2.1]) ∧
    ((rules_based_validation text country).warnings = [] ∨
     (rules_based_validation text country).warnings = [(check_hs_codes text).2]) := by
  cases h1 : (check_tax_id text country).1 <;>
    cases h2 : (check_incoterm text).1 <;>
      cases h3 : (check_hs_codes text).1 <;>
        simp [rules_based_validation, h1, h2, h3]

/-- C4: the claim describes the intended degrade-gracefully behaviour.
The source's `try/except` (lines 403-408) indeed continues past a failed
collaborator call and still computes and displays the verdict
(lines 412-420) — but `ai_report` is assigned only inside the `try`
block, so building `report_text` (line 441) then raises `NameError` and
the report artifact is never produced, nor is the narrative marked
unavailable.  This theorem evaluates the audit at a failing input: an
otherwise-valid Chilean invoice whose collaborator call fails — the
verdict is still `Passed`, but the artifact is absent (`none`) instead
of a report with an unavailable narrative. -/
theorem C4_collaborator_failure :
    (audit_run "12.345.678-5 FOB 8471.30.0000" .Chile "invoice.pdf"
        "2026-01-01 00:00:00" (fun _ => none)).2.1 = .Passed ∧
    (audit_run "12.345.678-5 FOB 8471.30.0000" .Chile "invoice.pdf"
        "2026-01-01 00:00:00" (fun _ => none)).2.2 = none := by
  constructor
  · decide
  · rfl

/-- C8 counterexample: this text contains `12.345.678-5`, `FOB` and
`8471.30.0000`, each word-bounded, yet validation for Chile reports the
earlier RUT `11.111.111-1` for TaxId (the first match in the text, not
necessarily `12.345.678-5`) and reports `EXW` for Incoterm (the first
valid term in canonical list order, not `FOB`). -/
theorem C8_counterexample :
    containsWordBounded "12.345.678-5" "11.111.111-1 12.345.678-5 EXW FOB 8471.30.0000" ∧
    containsWordBounded "FOB" "11.111.111-1 12.345.678-5 EXW FOB 8471.30.0000" ∧
    containsWordBounded "8471.30.0000" "11.111.111-1 12.345.678-5 EXW FOB 8471.30.0000" ∧
    (check_tax_id "11.111.111-1 12.345.678-5 EXW FOB 8471.30.0000" .Chile).2 =
      "✅ RUT found: 11.111.111-1" ∧
    (check_incoterm "11.111.111-1 12.345.678-5 EXW FOB 8471.30.0000").2.2 = some "EXW" := by
  refine ⟨⟨"11.111.111-1 ".data, " EXW FOB 8471.30.0000".data, by decide, by decide, by decide⟩,
    ⟨"11.111.111-1 12.345.678-5 EXW ".data, " 8471.30.0000".data, by decide, by decide, by decide⟩,
    ⟨"11.111.111-1 12.345.678-5 EXW FOB ".data, [], by decide, by decide, by decide⟩,
    by decide, by decide⟩

/-- C8 amended: for every text containing the substrings `12.345.678-5`,
`FOB` and `8471.30.0000`, each word-bounded, validating with country
Chile passes all three checks (TaxId, Incoterm, HsCode) and hence yields
the verdict `Passed`; the reported tax ID is the first pattern match in
the text and the reported Incoterm the first valid term in canonical
list order, so the reported values need not be `12.345.678-5` and `FOB`
themselves. -/
theorem C8_amended_chile_scenario (text : String)
    (h1 : containsWordBounded "12.345.678-5" text)
    (h2 : containsWordBounded "FOB" text)
    (h3 : containsWordBounded "8471.30.0000" text) :
    (check_tax_id text .Chile).1 = true ∧
    (check_incoterm text).1 = true ∧
    (check_hs_codes text).1 = true ∧
    audit_verdict (rules_based_validation text .Chile) = .Passed := by
  have p1 := check_tax_id_chile_passes text h1
  obtain ⟨l, r, hdec, _, _⟩ := h2
  have p2 := check_incoterm_passes text l r hdec
  have p3 := check_hs_codes_passes text h3
  refine ⟨p1, p2, p3, ?_⟩
  simp [rules_based_validation, audit_verdict, p1, p2, p3]

/-- C8 witness: the scenario-A text itself. -/
theorem C8_witness :
    (check_tax_id "12.345.678-5 FOB 8471.30.0000" .Chile).1 = true ∧
    (check_incoterm "12.345.678-5 FOB 8471.30.0000").1 = true ∧
    (check_hs_codes "12.345.678-5 FOB 8471.30.0000").1 = true ∧
    audit_verdict (rules_based_validation "12.345.678-5 FOB 8471.30.0000" .Chile) = .Passed :=
  C8_amended_chile_scenario "12.345.678-5 FOB 8471.30.0000"
    ⟨[], " FOB 8471.30.0000".data, by decide, by decide, by decide⟩
    ⟨"12.345.678-5 ".data, " 8471.30.0000".data, by decide, by decide, by decide⟩
    ⟨"12.345.678-5 FOB ".data, [], by decide, by decide, by decide⟩

/-- C9: the payload submitted to the external contextual-review
collaborator contains the document text only as its first 8000
characters — the prompt depends on the text solely through
`text[:8000]`, which is a prefix of the text of length at most 8000 —
while the orchestration hands the full, uncapped text to the rules-based
validators. -/
theorem C9_bounded_prefix_payload :
    (∀ t1 t2 : String, ∀ c rs, pySlice t1 8000 = pySlice t2 8000 →
      ai_deep_audit_prompt t1 c rs = ai_deep_audit_prompt t2 c rs) ∧
    (∀ t : String, (pySlice t 8000).data <+: t.data ∧ (pySlice t 8000).data.length ≤ 8000) ∧
    (∀ t c dn now ai, (audit_run t c dn now ai).1 = rules_based_validation t c) := by
  refine ⟨?_, ?_, ?_⟩
  · intro t1 t2 c rs h
    unfold ai_deep_audit_prompt
    rw [h]
  · intro t
    constructor
    · exact List.take_prefix 8000 t.data
    · show (t.data.take 8000).length ≤ 8000
      exact List.length_take_le 8000 t.data
  · intro t c dn now ai
    rfl

/-- C9 witness: concrete instantiation of all three parts. -/
theorem C9_witness :
    ai_deep_audit_prompt "doc" .Chile ⟨[], [], []⟩ =
      ai_deep_audit_prompt "doc" .Chile ⟨[], [], []⟩ ∧
    (pySlice "doc" 8000).data <+: "doc".data ∧
    (pySlice "doc" 8000).data.length ≤ 8000 ∧
    (audit_run "doc" .Chile "d.pdf" "ts" (fun _ => some "ok")).1 =
      rules_based_validation "doc" .Chile :=
  ⟨C9_bounded_prefix_payload.1 "doc" "doc" .Chile ⟨[], [], []⟩ rfl,
   (C9_bounded_prefix_payload.2.1 "doc").1,
   (C9_bounded_prefix_payload.2.1 "doc").2,
   C9_bounded_prefix_payload.2.2 "doc" .Chile "d.pdf" "ts" (fun _ => some "ok")⟩

end Watchdog
